import Mathlib

/-!
Verification development for the svg-cardmaker repository
(`generate_cards.py`, `collect_and_print.py`).

The Python sources are shallowly embedded below: text is `List Char`,
Python integers are `Int` (or `Nat` where the source value is a count),
Python dictionaries used as themes are partial maps `String → Option ThemeVal`,
fallible code returns `Option`/`Except`.
-/

namespace Cardmaker

/-! ## Definitions: the shallow embedding of the two source files -/

/-- The whitespace characters of Python's `str.strip` / `textwrap`
(space, tab, newline, vertical tab, form feed, carriage return). -/
def isWsCh (c : Char) : Bool :=
  c = ' ' || c = '\t' || c = '\n' || c = Char.ofNat 11 || c = Char.ofNat 12 || c = '\r'

/-- `text.replace("&","&amp;").replace("<","&lt;").replace(">","&gt;")`
(generate_cards.py line 55).  The three sequential single-character
replacements are equivalent to this single pass, because the replacement
for `&` contains no `<`/`>` and the later replacements leave the `&`
characters they introduce untouched. -/
def escape (t : List Char) : List Char :=
  (t.map fun c =>
    if c = '&' then ['&', 'a', 'm', 'p', ';']
    else if c = '<' then ['&', 'l', 't', ';']
    else if c = '>' then ['&', 'g', 't', ';']
    else [c]).flatten

/-- Python `str.split(sep)` for a single-character separator
(generate_cards.py line 57, `text.split("\n")`). -/
def splitOnChar (sep : Char) : List Char → List (List Char)
  | [] => [[]]
  | c :: cs =>
    let r := splitOnChar sep cs
    if c = sep then [] :: r
    else (c :: r.headD []) :: r.tail

/-- `para.strip() == ""` (generate_cards.py line 58). -/
def blankStr (l : List Char) : Bool := l.all isWsCh

/-- Python `str.strip()`. -/
def stripWs (t : List Char) : List Char :=
  ((t.dropWhile isWsCh).reverse.dropWhile isWsCh).reverse

/-- `replace_whitespace` of `textwrap._munge_whitespace`: every whitespace
character becomes one space (applied after `expand_tabs`, see `mungeWs`). -/
def normalizeWs (t : List Char) : List Char := t.map fun c => if isWsCh c then ' ' else c

/-- `str.expandtabs(tabsize)` with `textwrap`'s default tab size 8, applied
by `_munge_whitespace` (`expand_tabs=True` by default): each tab becomes
spaces up to the next multiple-of-8 column; the column advances by one per
character and resets to zero after a newline or carriage return. -/
def expandTabsAux : Nat → List Char → List Char
  | _, [] => []
  | col, c :: cs =>
    if c = '\t' then
      List.replicate (8 - col % 8) ' ' ++ expandTabsAux (col + (8 - col % 8)) cs
    else if c = '\n' || c = '\r' then c :: expandTabsAux 0 cs
    else c :: expandTabsAux (col + 1) cs

/-- `text.expandtabs(self.tabsize)` from column 0. -/
def expandTabs (t : List Char) : List Char := expandTabsAux 0 t

/-- `textwrap._munge_whitespace` with the default options: `expand_tabs`,
then `replace_whitespace` turning each whitespace character into a space. -/
def mungeWs (t : List Char) : List Char := normalizeWs (expandTabs t)

/-- Python's `\w` (word character) on the ASCII range: letter, digit or
underscore.  The card texts of this repository are ASCII; theorems that
quantify over input texts carry an ASCII hypothesis where the character
class matters. -/
def isWordCh (c : Char) : Bool := c.isAlphanum || c = '_'

/-- `textwrap`'s `letter = [^\d\W]` (a word character that is not a digit)
on the ASCII range: letter or underscore. -/
def isLetterCh (c : Char) : Bool := c.isAlpha || c = '_'

/-- `textwrap`'s `word_punct = [\w!"'&.,?]`. -/
def isWp (c : Char) : Bool :=
  isWordCh c || c = '!' || c = '"' || c = '\'' || c = '&' || c = '.' || c = ',' || c = '?'

/-- Lookbehind `(?<=word_punct)` at the current scan position; the splitter
carries the already consumed text in reverse, so this tests its head. -/
def headWp : List Char → Bool
  | p :: _ => isWp p
  | [] => false

/-- Test for `-{2,}(?=\w)` at the current position: a run of at least two
hyphens whose first following character is a word character.  The greedy
`-{2,}` can only satisfy the `(?=\w)` lookahead by consuming the whole run,
because after a shorter match the next character is another hyphen. -/
def emDashAhead (rest : List Char) : Bool :=
  2 ≤ (rest.takeWhile fun d => d = '-').length &&
    (match rest.dropWhile (fun d => d = '-') with
     | c :: _ => isWordCh c
     | [] => false)

/-- Lookbehind `(?<=letter{2}-)` of the hyphenated-word rule, tested on the
reversed consumed prefix. -/
def lb1 : List Char → Bool
  | h :: b :: a :: _ => decide (h = '-') && isLetterCh b && isLetterCh a
  | _ => false

/-- Lookbehind `(?<=letter-letter-)` of the hyphenated-word rule. -/
def lb2 : List Char → Bool
  | h :: b :: h2 :: a :: _ =>
    decide (h = '-') && isLetterCh b && decide (h2 = '-') && isLetterCh a
  | _ => false

/-- Lookahead `(?=letter-?letter)` of the hyphenated-word rule. -/
def la1 : List Char → Bool
  | c1 :: c2 :: rest =>
    isLetterCh c1 && (isLetterCh c2 ||
      (decide (c2 = '-') && match rest with | c3 :: _ => isLetterCh c3 | [] => false))
  | _ => false

/-- End-of-word test `(?=whitespace|\Z)` of the word alternative. -/
def wordEnd : List Char → Bool
  | [] => true
  | c :: _ => isWsCh c

/-- Whether the lazily growing word match `nowhitespace+?` of `wordsep_re`
can end at the current position: at the end of the word (next character is
whitespace, or the text ends), before an em-dash run (when the previous
character is word punctuation), or just after a consumed hyphen satisfying
the hyphenated-word lookbehinds and lookahead.  The hyphen case requires at
least two consumed characters (`nowhitespace+?` consumes at least one
character before the group consumes the hyphen).  The three cases demand a
whitespace, a hyphen resp. a letter as the next character, so they are
mutually exclusive and the regex engine's matching order does not matter. -/
def stopCond (prevRev rest : List Char) (n : Nat) : Bool :=
  wordEnd rest || (headWp prevRev && emDashAhead rest) ||
    (decide (2 ≤ n) && (lb1 prevRev || lb2 prevRev) && la1 rest)

/-- The word alternative of `wordsep_re`: extend the match one character at
a time until `stopCond` first holds; returns the consumed characters and
the remaining text.  `prevRev` is the whole text before the current
position in reverse (for the lookbehinds), `n` the length of the current
word match. -/
def wordScanAux : List Char → List Char → Nat → List Char × List Char
  | _, [], _ => ([], [])
  | prevRev, c :: rest, n =>
    if stopCond prevRev (c :: rest) n then ([], c :: rest)
    else
      let p := wordScanAux (c :: prevRev) rest (n + 1)
      (c :: p.1, p.2)

/-- `textwrap`'s chunk splitter `_split` with the default
`break_on_hyphens=True`: `wordsep_re.split` on the munged text, empty
strings removed.  Each chunk is a maximal whitespace run, an em-dash run
`(?<=word_punct)-{2,}(?=\w)` (whose success forces the head character to be
a hyphen, so the taken run is the maximal hyphen run), or a word scanned by
`wordScanAux`.  Fuel-based recursion: every chunk consumes at least one
character, so `s.length` steps suffice. -/
def splitMungedFuel : Nat → List Char → List Char → List (List Char)
  | 0, _, _ => []
  | _ + 1, _, [] => []
  | fuel + 1, prevRev, c :: cs =>
    if isWsCh c then
      let chunk := c :: cs.takeWhile isWsCh
      chunk :: splitMungedFuel fuel (chunk.reverse ++ prevRev) (cs.dropWhile isWsCh)
    else if headWp prevRev && emDashAhead (c :: cs) then
      let chunk := c :: cs.takeWhile fun d => d = '-'
      chunk :: splitMungedFuel fuel (chunk.reverse ++ prevRev)
        (cs.dropWhile fun d => d = '-')
    else
      (c :: (wordScanAux (c :: prevRev) cs 1).1) ::
        splitMungedFuel fuel ((c :: (wordScanAux (c :: prevRev) cs 1).1).reverse ++ prevRev)
          (wordScanAux (c :: prevRev) cs 1).2

/-- The chunk splitter, with enough fuel for its input and an empty
lookbehind context at the start of the text. -/
def splitChunks (s : List Char) : List (List Char) := splitMungedFuel s.length [] s

/-- The greedy inner loop of `textwrap._wrap_chunks`: take chunks from the
front while the accumulated length stays within `width`. -/
def takeFit (width cur : Nat) : List (List Char) → List (List Char) × List (List Char)
  | [] => ([], [])
  | c :: cs =>
    if cur + c.length ≤ width then
      let p := takeFit width (cur + c.length) cs
      (c :: p.1, p.2)
    else ([], c :: cs)

/-- `chunk.strip() == ''`: a chunk consisting of whitespace only. -/
def wsChunk (c : List Char) : Bool := c.all isWsCh

/-- `if cur_line and cur_line[-1].strip() == '': del cur_line[-1]` —
drop a trailing whitespace chunk from the line under construction. -/
def dropTrailWs (l : List (List Char)) : List (List Char) :=
  match l.getLast? with
  | some c => if wsChunk c then l.dropLast else l
  | none => l

/-- The chunk consumption of one iteration of `textwrap._wrap_chunks` with
`break_long_words=False`: greedily take chunks that fit; a chunk longer than
`width` that would start the line is taken alone and unsplit
(`_handle_long_word`). Returns (chunks of the line, remaining chunks). -/
def fillSplit (width : Nat) (chunks : List (List Char)) : List (List Char) × List (List Char) :=
  match takeFit width 0 chunks with
  | ([], []) => ([], [])
  | ([], c :: cs) => ([c], cs)
  | (t :: ts, r) => (t :: ts, r)

/-- One iteration of `textwrap._wrap_chunks`: fill one line, drop a trailing
whitespace chunk, emit the line only if it is non-empty. -/
def fillLine (width : Nat) (chunks : List (List Char)) : Option (List Char) × List (List Char) :=
  let line := dropTrailWs (fillSplit width chunks).1
  (if line = [] then none else some line.flatten, (fillSplit width chunks).2)

/-- The outer loop of `textwrap._wrap_chunks`: while chunks remain, drop a
leading whitespace chunk if some line has been emitted already
(`drop_whitespace` with `lines` non-empty), fill one line, emit it if
non-empty, repeat. -/
def wrapChunksFuel (width : Nat) : Nat → Bool → List (List Char) → List (List Char)
  | 0, _, _ => []
  | _, _, [] => []
  | fuel + 1, hasLines, c :: cs =>
    match fillLine width (cond (hasLines && wsChunk c) cs (c :: cs)) with
    | (some line, rest) => line :: wrapChunksFuel width fuel true rest
    | (none, rest) => wrapChunksFuel width fuel hasLines rest

/-- The outer loop, with enough fuel for its input: each iteration consumes at
least one chunk (`fillLine_branch_lt`), so `chunks.length` steps suffice. -/
def wrapChunksAux (width : Nat) (hasLines : Bool) (chunks : List (List Char)) :
    List (List Char) :=
  wrapChunksFuel width chunks.length hasLines chunks

/-- `textwrap.wrap(para, width=width, break_long_words=False)` for one
newline-free paragraph: munge the whitespace, split into chunks, fill
greedily. -/
def pyWrap (width : Nat) (para : List Char) : List (List Char) :=
  wrapChunksAux width false (splitChunks (mungeWs para))

/-- The line sequence computed by `wrap_svg_text` (generate_cards.py 55-62):
escape `&`, `<`, `>`, split into paragraphs on `"\n"`, map a blank paragraph
to one blank line and any other paragraph to its `textwrap` wrapping. -/
def wrapSvgLines (width : Nat) (text : List Char) : List (List Char) :=
  ((splitOnChar '\n' (escape text)).map fun para =>
    if blankStr para then [[]] else pyWrap width para).flatten

/-- A value stored in the theme dictionary: a style string or a tuple of
2, 3 or 4 integers. -/
inductive ThemeVal
  | s (v : String)
  | p2 (a b : Int)
  | p3 (a b c : Int)
  | p4 (a b c d : Int)
deriving DecidableEq

/-- An axis-aligned rectangle (x, y, width, height) in canvas coordinates. -/
structure Rect where
  x : Int
  y : Int
  w : Int
  h : Int
deriving DecidableEq

def tvStr : Option ThemeVal → Option String
  | some (.s v) => some v
  | _ => none

def tvR4 : Option ThemeVal → Option Rect
  | some (.p4 a b c d) => some ⟨a, b, c, d⟩
  | _ => none

def tvR3 : Option ThemeVal → Option (Int × Int × Int)
  | some (.p3 a b c) => some (a, b, c)
  | _ => none

def tvR2 : Option ThemeVal → Option (Int × Int)
  | some (.p2 a b) => some (a, b)
  | _ => none

/- The scalar layout parameters of get_theme (generate_cards.py 153-170),
all hard-coded in the source. -/

def cardWidth : Int := 744

def cardHeight : Int := 1039

def outerPadding : Int := 12

def innerPadding : Int := outerPadding + 6

def innerWidth : Int := cardWidth - 2 * innerPadding

def titleH : Int := 52

def artYv : Int := innerPadding + titleH + 6

def artHv : Int := 430

def typeYv : Int := artYv + artHv + 6

def typeHv : Int := 52

def rulesYv : Int := typeYv + typeHv + 6

def rulesHv : Int := 360

def optYv : Int := rulesYv + rulesHv + 6

def optHv : Int := 52

/-- The default theme dictionary built by get_theme (generate_cards.py
172-205), before the override merge and the rarity color. -/
def defaultTheme : String → Option ThemeVal := fun k =>
  if k = "frame_bg" then some (.s "#1b1b1b")
  else if k = "frame_inner" then some (.s "#B0B0B0")
  else if k = "frame_border" then some (.s "#121212")
  else if k = "title_bg" then some (.s "#e9e3d9")
  else if k = "title_fg" then some (.s "#111")
  else if k = "art_bg" then some (.s "#ddd")
  else if k = "type_bg" then some (.s "#ece7de")
  else if k = "type_fg" then some (.s "#222")
  else if k = "rules_bg" then some (.s "#f6f2ea")
  else if k = "rules_fg" then some (.s "#222")
  else if k = "flavor_fg" then some (.s "#555")
  else if k = "footer_fg" then some (.s "#444")
  else if k = "pt_bg" then some (.s "#e9e3d9")
  else if k = "pt_fg" then some (.s "#111")
  else if k = "font_serif" then some (.s "Georgia, 'Times New Roman', serif")
  else if k = "font_sans" then some (.s "Inter, Arial, sans-serif")
  else if k = "card_sz" then some (.p2 cardWidth cardHeight)
  else if k = "inner_rec" then
    some (.p4 outerPadding outerPadding (cardWidth - 2 * outerPadding)
      (cardHeight - 2 * outerPadding))
  else if k = "title_rec" then some (.p4 innerPadding innerPadding innerWidth titleH)
  else if k = "title_txt_rec" then
    some (.p3 (innerPadding + 18) (innerPadding + titleH - 16) 32)
  else if k = "title_rarity_rec" then
    some (.p3 (cardWidth - 2 * innerPadding - 18) (innerPadding + titleH - 16) 24)
  else if k = "art_rec" then some (.p4 innerPadding artYv innerWidth artHv)
  else if k = "type_rec" then some (.p4 innerPadding typeYv innerWidth typeHv)
  else if k = "type_txt_rec" then some (.p3 (innerPadding + 18) (typeYv + typeHv - 18) 24)
  else if k = "rules_rec" then some (.p4 innerPadding rulesYv innerWidth rulesHv)
  else if k = "rules_txt_rec" then some (.p3 (innerPadding + 18) (rulesYv + 6 + 24) 24)
  else if k = "flavor_txt_rec" then
    some (.p3 (innerPadding + 18) (rulesYv + rulesHv - 48) 24)
  else if k = "footer_txt_rec_l" then
    some (.p3 (innerPadding + 11) (cardHeight - innerPadding - 6) 11)
  else if k = "footer_txt_rec_r" then
    some (.p3 (cardWidth - 2 * innerPadding - 11) (cardHeight - innerPadding - 6) 11)
  else if k = "opt_box" then some (.p4 (innerPadding + innerWidth) optYv 150 54)
  else if k = "opt_txt_rec" then
    some (.p3 (innerPadding + innerWidth - 75) (optYv + optHv - 16) 24)
  else none

/-- The closed rarity palette (generate_cards.py 209-216). -/
def rarityColors (r : String) : Option String :=
  if r = "Common" then some "#B0B0B0"
  else if r = "Uncommon" then some "#81AD82"
  else if r = "Rare" then some "#B8D8F1"
  else if r = "Very Rare" then some "#F1DAB6"
  else if r = "Legendary" then some "#CF9F9F"
  else if r = "Quest" then some "#E9E3B5"
  else none

/-- `get_theme(name, rarity)` (generate_cards.py 152-219): the default theme,
shallow-merged with the per-card override dictionary (`theme.update(name)`,
override wins per key), after which a recognised rarity overwrites
`frame_inner` with its palette color. -/
def getTheme (ov : String → Option ThemeVal) (rarity : String) :
    String → Option ThemeVal := fun k =>
  if k = "frame_inner" then
    match rarityColors rarity with
    | some c => some (.s c)
    | none => (ov k).orElse fun _ => defaultTheme k
  else (ov k).orElse fun _ => defaultTheme k

/-- The empty override dictionary (no per-card theme). -/
def noOverride : String → Option ThemeVal := fun _ => none

/-- Two axis-aligned rectangles have no common interior point. -/
def rectDisjoint (a b : Rect) : Prop :=
  a.x + a.w ≤ b.x ∨ b.x + b.w ≤ a.x ∨ a.y + a.h ≤ b.y ∨ b.y + b.h ≤ a.y

/-- `a` lies entirely inside `b`. -/
def rectInside (a b : Rect) : Prop :=
  b.x ≤ a.x ∧ b.y ≤ a.y ∧ a.x + a.w ≤ b.x + b.w ∧ a.y + a.h ≤ b.y + b.h

/-- `r` lies entirely within a canvas of size `cw × ch`. -/
def rectInCanvas (cw ch : Int) (r : Rect) : Prop :=
  0 ≤ r.x ∧ 0 ≤ r.y ∧ r.x + r.w ≤ cw ∧ r.y + r.h ≤ ch

instance (a b : Rect) : Decidable (rectDisjoint a b) := by
  unfold rectDisjoint; infer_instance

instance (a b : Rect) : Decidable (rectInside a b) := by
  unfold rectInside; infer_instance

instance (cw ch : Int) (r : Rect) : Decidable (rectInCanvas cw ch r) := by
  unfold rectInCanvas; infer_instance

/-- The badge rectangle actually drawn by `build_optional_str`
(generate_cards.py 138): the stored `opt_box` anchor `(x, y, w, h)` yields a
rect at `(x - w, y)`. -/
def drawnBox (r : Rect) : Rect := ⟨r.x - r.w, r.y, r.w, r.h⟩

/-- Python truthiness of an optional string field (`if el:`): present and
non-empty. -/
def truthy : Option String → Bool
  | some s => s ≠ ""
  | none => false

/-- The fields that get a badge, in source order `[pt, price, weight]`. -/
def presentFields (fields : List (Option String)) : List String :=
  (fields.filter truthy).filterMap id

/-- The badge geometry loop of `build_optional_str` (generate_cards.py
132-142): for each truthy field emit one badge box at `(x - w, y)` with text
anchor `(tx, ty)`, then shift both `x` and `tx` left by `w + 6`; falsy fields
are skipped without shifting. Returns (box x, text x, text) per badge. -/
def optionalBadges (w : Int) (x tx : Int) : List (Option String) → List (Int × Int × String)
  | [] => []
  | f :: rest =>
    if truthy f then
      (x - w, tx, f.getD "") :: optionalBadges w (x - (w + 6)) (tx - (w + 6)) rest
    else optionalBadges w x tx rest

/-- `a4_dimensions(dpi, orientation)` (collect_and_print.py 53-58), with the
float arithmetic carried out exactly over the rationals.  `round` is exact
here: the products involved are far from a half-integer boundary, so the
double-precision rounding error (≈ 1e-9 relative) cannot change the rounded
value, and Python's banker's rounding agrees with `round` away from halves. -/
def a4_dimensions (dpi : Int) (orientation : String) : Int × Int :=
  let wIn : ℚ := 8267716535 / 1000000000
  let hIn : ℚ := 11692913386 / 1000000000
  if orientation = "a4portrait" then (round (wIn * dpi), round (hIn * dpi))
  else (round (hIn * dpi), round (wIn * dpi))

/-- `layout_positions` (collect_and_print.py 60-71).  `margin_px` is accepted
and unused, exactly as in the source; `//` is Python floor division
(`Int.fdiv`); cell origins are enumerated row-major (row outer loop, column
inner loop). -/
def layout_positions (sheet_w sheet_h card_w card_h : Int) (cols rows : Nat)
    (margin_px gutter_px : Int) : List (Int × Int) :=
  let total_cards_w := (cols : Int) * card_w + ((cols : Int) - 1) * gutter_px
  let total_cards_h := (rows : Int) * card_h + ((rows : Int) - 1) * gutter_px
  let x0 := Int.fdiv (sheet_w - total_cards_w) 2
  let y0 := Int.fdiv (sheet_h - total_cards_h) 2
  ((List.range rows).map fun r =>
    (List.range cols).map fun c =>
      (x0 + (c : Int) * (card_w + gutter_px), y0 + (r : Int) * (card_h + gutter_px))).flatten

/-- The pagination loop of `make_sheets` (collect_and_print.py 111-120):
`for i in range(0, len(pngs), per_page): chunk = pngs[i:i+per_page]` —
consecutive chunks of `per_page` images, in input order. -/
def chunkPages {α : Type} (k : Nat) : List α → List (List α)
  | [] => []
  | x :: xs => (x :: xs.take (k - 1)) :: chunkPages k (xs.drop (k - 1))
termination_by l => l.length
decreasing_by
  simp only [List.length_cons, List.length_drop]
  omega

/-- Python `str.lower()` (as used on ASCII stems/identifiers), mapping each
character to lower case. -/
def lowerStr (s : String) : String := String.mk (s.data.map Char.toLower)

/-- The directory index of `collect_files` (collect_and_print.py 84-86):
`index[p.stem.lower()] = p` — the last glob entry with a given lowercased
stem wins, exactly like repeated dict assignment. -/
def indexLookup (stems : List String) (key : String) : Option String :=
  stems.reverse.find? fun s => lowerStr s == key

/-- `collect_files(cards_dir, requests)` (collect_and_print.py 83-93): each
request `(base, count)` resolves case-insensitively against the index; the
first unresolvable base raises (modelled as `Except.error base`); a resolved
request contributes `count` copies of its path, in request order. -/
def collectFiles (stems : List String) : List (String × Nat) → Except String (List String)
  | [] => .ok []
  | (base, count) :: rs =>
    match indexLookup stems (lowerStr base) with
    | none => .error base
    | some p => (collectFiles stems rs).map fun out => List.replicate count p ++ out

/-- The resolution-then-pagination order of `main` and `make_sheets`
(collect_and_print.py 111-120, 156-163): all requests are resolved first;
only a fully resolved list is rasterized and packed into pages, so a
resolution failure yields an error and no pages. -/
def mainPages (stems : List String) (requests : List (String × Nat)) (perPage : Nat) :
    Except String (List (List String)) :=
  (collectFiles stems requests).map fun svgs => chunkPages perPage svgs

/-- Python's `str()` of a theme value inside an f-string: strings verbatim,
tuples in parenthesised comma-separated form. -/
def tvFormat : ThemeVal → String
  | .s v => v
  | .p2 a b => "(" ++ toString a ++ ", " ++ toString b ++ ")"
  | .p3 a b c => "(" ++ toString a ++ ", " ++ toString b ++ ", " ++ toString c ++ ")"
  | .p4 a b c d =>
    "(" ++ toString a ++ ", " ++ toString b ++ ", " ++ toString c ++ ", " ++ toString d ++ ")"

/-- `theme[k]` interpolated into an f-string; a missing key raises
(modelled as `none`). -/
def getFmt (th : String → Option ThemeVal) (k : String) : Option String :=
  (th k).map tvFormat

/-- One `tspan` element of `wrap_svg_text` (generate_cards.py line 67). -/
def tspanLine (x y : Int) (t : List Char) : String :=
  "<tspan x=\"" ++ toString x ++ "\" dy=\"" ++ toString y ++ "\">" ++ String.mk t ++ "</tspan>"

/-- The tspan loop of `wrap_svg_text` (generate_cards.py 63-71). -/
def tspansAux (x lh : Int) : Int → List (List Char) → List String
  | _, [] => []
  | y, l :: ls => tspanLine x y l :: tspansAux x lh (if l = [] then lh + lh else lh) ls

/-- The full `wrap_svg_text` (generate_cards.py 48-72): the wrapped lines as
`tspan` elements joined with a newline and four spaces. -/
def wrapSvgText (width : Nat) (lh x : Int) (text : List Char) : String :=
  String.intercalate "\n    " (tspansAux x lh 0 (wrapSvgLines width text))

/-- A `rules_text` value: a string or a list of strings. -/
inductive RulesText
  | str (t : List Char)
  | lst (ts : List (List Char))

/-- The list branch of `wrap_svg_text` (generate_cards.py 49-53): elements
joined, each followed by a newline. -/
def rulesToText : RulesText → List Char
  | .str t => t
  | .lst ts => (ts.map fun el => el ++ ['\n']).flatten

/-- The standard base64 alphabet and encoding (with `=` padding), as produced
by `base64.b64encode`. -/
def b64Char (n : Nat) : Char :=
  "ABCDEFGHIJKLMNOPQRSTUVWXYZabcdefghijklmnopqrstuvwxyz0123456789+/".data.getD n 'A'

def base64 : List Nat → List Char
  | [] => []
  | [a] =>
    [b64Char (a % 256 / 4), b64Char (a % 256 % 4 * 16), '=', '=']
  | [a, b] =>
    [b64Char (a % 256 / 4), b64Char (a % 256 % 4 * 16 + b % 256 / 16),
     b64Char (b % 256 % 16 * 4), '=']
  | a :: b :: c :: rest =>
    [b64Char (a % 256 / 4), b64Char (a % 256 % 4 * 16 + b % 256 / 16),
     b64Char (b % 256 % 16 * 4 + c % 256 / 64), b64Char (c % 256 % 64)]
      ++ base64 rest

/-- `data_uri_for_image` (generate_cards.py 40-46): `none` models a missing
file; otherwise the base64 data URI of the file's bytes. -/
def data_uri_for_image (bytes : Option (List Nat)) (mime : String) : Option String :=
  match bytes with
  | none => none
  | some bs => some ("data:" ++ mime ++ ";base64," ++ String.mk (base64 bs))

/-- A card record as consumed by `build_svg` (`card.get(...)` fields; the
bytes of the referenced art file are part of the input, `none` modelling a
missing file). -/
structure Card where
  name : Option String
  rarity : Option String
  theme : String → Option ThemeVal
  art_path : Option String
  artBytes : Option (List Nat)
  type_line : Option String
  rules_text : Option RulesText
  flavor_text : Option String
  pt : Option String
  price : Option String
  weight : Option String
  set_code : Option String
  collector : Option String
  author : Option String
  copyright : Option String

/-- build_frame_str (generate_cards.py 74-79). -/
def build_frame_str (th : String → Option ThemeVal) : Option String := do
  let cs ← tvR2 (th "card_sz")
  let r ← tvR4 (th "inner_rec")
  let bg ← getFmt th "frame_bg"
  let fi ← getFmt th "frame_inner"
  let fb ← getFmt th "frame_border"
  return "<rect x=\"0\" y=\"0\" width=\"" ++ toString cs.1 ++ "\" height=\"" ++ toString cs.2
    ++ "\" fill=\"" ++ bg ++ "\" rx=\"18\" ry=\"18\"/>"
    ++ "<rect x=\"" ++ toString r.x ++ "\" y=\"" ++ toString r.y ++ "\" width=\""
    ++ toString r.w ++ "\" height=\"" ++ toString r.h ++ "\" fill=\"" ++ fi
    ++ "\" rx=\"14\" ry=\"14\" stroke=\"" ++ fb ++ "\" stroke-width=\"2\"/>"

/-- build_title_str (generate_cards.py 81-90). -/
def build_title_str (th : String → Option ThemeVal) (name rarity : String) :
    Option String := do
  let r ← tvR4 (th "title_rec")
  let tbg ← getFmt th "title_bg"
  let fb ← getFmt th "frame_border"
  let t1 ← tvR3 (th "title_txt_rec")
  let fser ← getFmt th "font_serif"
  let tfg ← getFmt th "title_fg"
  let t2 ← tvR3 (th "title_rarity_rec")
  return "<rect x=\"" ++ toString r.x ++ "\" y=\"" ++ toString r.y ++ "\" width=\""
    ++ toString r.w ++ "\" height=\"" ++ toString r.h ++ "\" rx=\"8\" ry=\"8\" fill=\""
    ++ tbg ++ "\" stroke=\"" ++ fb ++ "\" stroke-width=\"2\"/>"
    ++ "<text x=\"" ++ toString t1.1 ++ "\" y=\"" ++ toString t1.2.1 ++ "\" font-family=\""
    ++ fser ++ "\" font-size=\"" ++ toString t1.2.2 ++ "\" font-weight=\"700\" fill=\""
    ++ tfg ++ "\">" ++ name ++ "</text>"
    ++ "<text x=\"" ++ toString t2.1 ++ "\" y=\"" ++ toString t2.2.1 ++ "\" font-family=\""
    ++ fser ++ "\" font-size=\"" ++ toString t2.2.2 ++ "\" text-anchor=\"end\" fill=\""
    ++ tfg ++ "\">" ++ rarity ++ "</text>"

/-- build_art_str (generate_cards.py 92-106): returns (clipping_art, art_img).
An empty or absent art path, or a missing file, keeps the placeholder fill;
the border stroke is always redrawn on top. -/
def build_art_str (th : String → Option ThemeVal) (art_path : Option String)
    (artBytes : Option (List Nat)) : Option (String × String) := do
  let r ← tvR4 (th "art_rec")
  let abg ← getFmt th "art_bg"
  let fb ← getFmt th "frame_border"
  let clipping := "<clipPath id=\"artClip\"><rect x=\"" ++ toString r.x ++ "\" y=\""
    ++ toString r.y ++ "\" rx=\"10\" ry=\"10\" width=\"" ++ toString r.w ++ "\" height=\""
    ++ toString r.h ++ "\" /></clipPath>"
  let placeholder := "<rect x=\"" ++ toString r.x ++ "\" y=\"" ++ toString r.y
    ++ "\" width=\"" ++ toString r.w ++ "\" height=\"" ++ toString r.h
    ++ "\" rx=\"10\" ry=\"10\" fill=\"" ++ abg ++ "\" stroke=\"" ++ fb
    ++ "\" stroke-width=\"2\"/>"
  let art0 :=
    match art_path with
    | none => placeholder
    | some ap =>
      if ap = "" then placeholder
      else
        let mime := if List.isSuffixOf ".jpg".data (lowerStr ap).data
            || List.isSuffixOf ".jpeg".data (lowerStr ap).data
          then "image/jpeg" else "image/png"
        match data_uri_for_image artBytes mime with
        | some uri => "<image href=\"" ++ uri ++ "\" x=\"" ++ toString r.x ++ "\" y=\""
            ++ toString r.y ++ "\" width=\"" ++ toString r.w ++ "\" height=\""
            ++ toString r.h
            ++ "\" preserveAspectRatio=\"xMidYMid slice\" clip-path=\"url(#artClip)\" />"
        | none => placeholder
  let border := "<rect x=\"" ++ toString r.x ++ "\" y=\"" ++ toString r.y ++ "\" width=\""
    ++ toString r.w ++ "\" height=\"" ++ toString r.h
    ++ "\" rx=\"10\" ry=\"10\" fill-opacity=\"0\" stroke=\"" ++ fb
    ++ "\" stroke-width=\"2\"/>"
  return (clipping, art0 ++ border)

/-- build_type_str (generate_cards.py 108-114). -/
def build_type_str (th : String → Option ThemeVal) (typeLine : String) :
    Option String := do
  let r ← tvR4 (th "type_rec")
  let tbg ← getFmt th "type_bg"
  let fb ← getFmt th "frame_border"
  let t ← tvR3 (th "type_txt_rec")
  let fsan ← getFmt th "font_sans"
  let tfg ← getFmt th "type_fg"
  return "<rect x=\"" ++ toString r.x ++ "\" y=\"" ++ toString r.y ++ "\" width=\""
    ++ toString r.w ++ "\" height=\"" ++ toString r.h ++ "\" rx=\"6\" ry=\"6\" fill=\""
    ++ tbg ++ "\" stroke=\"" ++ fb ++ "\" stroke-width=\"2\"/>"
    ++ "<text x=\"" ++ toString t.1 ++ "\" y=\"" ++ toString t.2.1 ++ "\" font-family=\""
    ++ fsan ++ "\" font-size=\"" ++ toString t.2.2 ++ "\" font-weight=\"600\" fill=\""
    ++ tfg ++ "\">" ++ typeLine ++ "</text>"

/-- The flavor-text tspan block of build_rules_str (generate_cards.py
127-128): the flavor text enclosed in curly quotation marks, wrapped by the
same `wrap_svg_text` at the same width budget 60. -/
def flavorTspans (x lh : Int) (flavor : List Char) : String :=
  wrapSvgText 60 lh x ('“' :: (flavor ++ ['”']))

/-- build_rules_str (generate_cards.py 116-130). -/
def build_rules_str (th : String → Option ThemeVal) (rules : RulesText)
    (flavor : List Char) : Option String := do
  let r ← tvR4 (th "rules_rec")
  let rbg ← getFmt th "rules_bg"
  let fb ← getFmt th "frame_border"
  let rt ← tvR3 (th "rules_txt_rec")
  let fser ← getFmt th "font_serif"
  let rfg ← getFmt th "rules_fg"
  let ft ← tvR3 (th "flavor_txt_rec")
  let ffg ← getFmt th "flavor_fg"
  let rules_lines := wrapSvgText 60 rt.2.2 rt.1 (rulesToText rules)
  let flavor_lines := if flavor = [] then "" else flavorTspans ft.1 ft.2.2 flavor
  return "<rect x=\"" ++ toString r.x ++ "\" y=\"" ++ toString r.y ++ "\" width=\""
    ++ toString r.w ++ "\" height=\"" ++ toString r.h ++ "\" rx=\"10\" ry=\"10\" fill=\""
    ++ rbg ++ "\" stroke=\"" ++ fb ++ "\" stroke-width=\"2\"/>"
    ++ "<text x=\"" ++ toString rt.1 ++ "\" y=\"" ++ toString rt.2.1 ++ "\" font-family=\""
    ++ fser ++ "\" font-size=\"" ++ toString rt.2.2 ++ "\" fill=\"" ++ rfg ++ "\">"
    ++ rules_lines ++ "</text>"
    ++ "<text x=\"" ++ toString ft.1 ++ "\" y=\"" ++ toString ft.2.1 ++ "\" font-family=\""
    ++ fser ++ "\" font-size=\"" ++ toString ft.2.2 ++ "\" font-style=\"italic\" fill=\""
    ++ ffg ++ "\">" ++ flavor_lines ++ "</text>"

/-- build_optional_str (generate_cards.py 132-142), rendered from the badge
geometry computed by `optionalBadges`. -/
def build_optional_str (th : String → Option ThemeVal)
    (pt price weight : Option String) : Option String := do
  let ob ← tvR4 (th "opt_box")
  let ot ← tvR3 (th "opt_txt_rec")
  let pbg ← getFmt th "pt_bg"
  let fb ← getFmt th "frame_border"
  let fser ← getFmt th "font_serif"
  let pfg ← getFmt th "pt_fg"
  return String.join ((optionalBadges ob.w ob.x ot.1 [pt, price, weight]).map fun bdg =>
    "<g><rect x=\"" ++ toString bdg.1 ++ "\" y=\"" ++ toString ob.y ++ "\" width=\""
    ++ toString ob.w ++ "\" height=\"" ++ toString ob.h
    ++ "\" rx=\"8\" ry=\"8\" fill=\"" ++ pbg ++ "\" stroke=\"" ++ fb
    ++ "\" stroke-width=\"2\"/>"
    ++ "<text x=\"" ++ toString bdg.2.1 ++ "\" y=\"" ++ toString ot.2.1
    ++ "\" font-family=\"" ++ fser ++ "\" font-size=\"" ++ toString ot.2.2
    ++ "\" font-weight=\"700\" text-anchor=\"middle\" fill=\"" ++ pfg ++ "\">"
    ++ bdg.2.2 ++ "</text></g>")

/-- build_footer_str (generate_cards.py 144-150). -/
def build_footer_str (th : String → Option ThemeVal)
    (set_code collector author copyright_str : String) : Option String := do
  let fl ← tvR3 (th "footer_txt_rec_l")
  let fsan ← getFmt th "font_sans"
  let ffg ← getFmt th "footer_fg"
  let fr ← tvR3 (th "footer_txt_rec_r")
  return "<g><text x=\"" ++ toString fl.1 ++ "\" y=\"" ++ toString fl.2.1
    ++ "\" font-family=\"" ++ fsan ++ "\" font-size=\"" ++ toString fl.2.2
    ++ "\" fill=\"" ++ ffg ++ "\">" ++ set_code ++ " • " ++ collector ++ " • " ++ author
    ++ "</text>"
    ++ "<text x=\"" ++ toString fr.1 ++ "\" y=\"" ++ toString fr.2.1
    ++ "\" font-family=\"" ++ fsan ++ "\" font-size=\"" ++ toString fr.2.2
    ++ "\" text-anchor=\"end\" fill=\"" ++ ffg ++ "\">" ++ copyright_str ++ "</text></g>"

/-- SVG_TEMPLATE (generate_cards.py 11-38) with its placeholders substituted,
exactly as `Template.substitute` produces it. -/
def svgTemplate (card_w card_h : Int)
    (clipping_art frame_str title_str art_img type_str rules_str opt_str footer_str :
      String) : String :=
  "<?xml version=\"1.0\" encoding=\"UTF-8\" standalone=\"no\"?>\n<svg width=\""
  ++ toString card_w ++ "px\" height=\"" ++ toString card_h ++ "px\" viewBox=\"0 0 "
  ++ toString card_w ++ " " ++ toString card_h
  ++ "\" xmlns=\"http://www.w3.org/2000/svg\">\n  <defs>\n    " ++ clipping_art
  ++ "\n  </defs>\n\n  <!-- frame -->\n  " ++ frame_str
  ++ "\n  \n  <!-- Title bar -->\n  " ++ title_str
  ++ "\n\n  <!-- Art -->\n  " ++ art_img
  ++ "\n\n  <!-- Type line -->\n  " ++ type_str
  ++ "\n\n  <!-- Rules text box -->\n  " ++ rules_str
  ++ "\n\n  <!-- Optional -->\n  " ++ opt_str
  ++ "\n\n  <!-- Footer -->\n  " ++ footer_str
  ++ "\n</svg>\n"

/-- The rules component of `build_svg` (generate_cards.py line 230): the
rules box depends only on the theme, rarity, rules text and flavor text. -/
def rulesComponent (card : Card) : Option String :=
  build_rules_str (getTheme card.theme (card.rarity.getD "Common"))
    (card.rules_text.getD (.str ['—'])) (stripWs (card.flavor_text.getD "").data)

/-- build_svg (generate_cards.py 221-252), up to the vector document string;
writing the file is an external concern (the output path plays no part in the
document bytes). -/
def build_svg (card : Card) : Option String := do
  let th := getTheme card.theme (card.rarity.getD "Common")
  let frame_str ← build_frame_str th
  let title_str ← build_title_str th (card.name.getD "Unnamed Item") (card.rarity.getD "Common")
  let art ← build_art_str th card.art_path card.artBytes
  let type_str ← build_type_str th (card.type_line.getD "Item — Wondrous")
  let rules_str ← rulesComponent card
  let opt_str ← build_optional_str th card.pt card.price card.weight
  let footer_str ← build_footer_str th (card.set_code.getD "DND")
    (card.collector.getD "001/001") (card.author.getD "") (card.copyright.getD "© 2025")
  let cs ← tvR2 (th "card_sz")
  return svgTemplate cs.1 cs.2 art.1 frame_str title_str art.2 type_str rules_str
    opt_str footer_str

/-- A concrete sample card for the determinism witness: no overrides, a small
art file. -/
def sampleCard : Card where
  name := some "Sword of the Autumn Wolf"
  rarity := some "Legendary"
  theme := noOverride
  art_path := some "art/wolf.jpg"
  artBytes := some [97, 98, 99]
  type_line := some "Weapon (longsword)"
  rules_text := some (.str ['S', 'l', 'a', 's', 'h'])
  flavor_text := some " A keen blade. "
  pt := some "2/3"
  price := none
  weight := some "5 lb"
  set_code := some "DND"
  collector := some "001/001"
  author := some "w"
  copyright := some "© 2025"

/-! ## Theorems -/

theorem getTheme_default (ov : String → Option ThemeVal) (rarity k : String)
    (hk : k ≠ "frame_inner") (hov : ov k = none) :
    getTheme ov rarity k = defaultTheme k := by
  simp [getTheme, hk, hov, Option.orElse]

theorem chunkPages_flatten {α : Type} (k : Nat) (l : List α) :
    (chunkPages k l).flatten = l := by
  induction l using chunkPages.induct k with
  | case1 => simp [chunkPages]
  | case2 x xs ih =>
    simp only [chunkPages, List.flatten_cons, ih, List.cons_append]
    rw [List.take_append_drop]

theorem chunkPages_ne_nil {α : Type} (k : Nat) (l : List α) (hl : l ≠ []) :
    chunkPages k l ≠ [] := by
  cases l with
  | nil => exact absurd rfl hl
  | cons x xs => simp [chunkPages]

theorem chunkPages_length {α : Type} (k : Nat) (hk : 1 ≤ k) (l : List α) :
    (chunkPages k l).length = (l.length + k - 1) / k := by
  induction l using chunkPages.induct k with
  | case1 =>
    simp only [chunkPages, List.length_nil]
    exact (Nat.div_eq_of_lt (by omega)).symm
  | case2 x xs ih =>
    simp only [chunkPages, List.length_cons, ih, List.length_drop]
    have hstep : (xs.length + 1 + k - 1) / k = xs.length / k + 1 := by
      have : xs.length + 1 + k - 1 = xs.length + k := by omega
      rw [this, Nat.add_div_right _ (by omega)]
    rw [hstep]
    by_cases hx : xs.length ≤ k - 1
    · have h1 : xs.length - (k - 1) = 0 := by omega
      rw [h1]
      have h2 : (0 + k - 1) / k = 0 := Nat.div_eq_of_lt (by omega)
      have h3 : xs.length / k = 0 := Nat.div_eq_of_lt (by omega)
      rw [h2, h3]
    · have h1 : xs.length - (k - 1) + k - 1 = xs.length := by omega
      rw [h1]

theorem chunkPages_dropLast {α : Type} (k : Nat) (hk : 1 ≤ k) (l : List α) :
    ∀ c ∈ (chunkPages k l).dropLast, c.length = k := by
  induction l using chunkPages.induct k with
  | case1 => simp [chunkPages]
  | case2 x xs ih =>
    intro c hc
    rcases hdrop : xs.drop (k - 1) with _ | ⟨d, ds⟩
    · simp only [chunkPages, hdrop, List.dropLast_single] at hc
      exact absurd hc (List.not_mem_nil c)
    · have hne : chunkPages k (xs.drop (k - 1)) ≠ [] := by
        rw [hdrop]; exact chunkPages_ne_nil k _ (by simp)
      simp only [chunkPages] at hc
      rw [List.dropLast_cons_of_ne_nil hne] at hc
      rcases List.mem_cons.mp hc with h | h
      · subst h
        have hlen : k - 1 ≤ xs.length := by
          have := congrArg List.length hdrop
          simp [List.length_drop] at this
          omega
        simp [List.length_take, Nat.min_eq_left hlen]
        omega
      · exact ih c h

theorem sub_mul_helper (n k L : Nat) (hk : 1 ≤ k) (hn : k - 1 < n) (hL : 1 ≤ L) :
    n - (k - 1) - k * (L - 1) = n + 1 - k * (L + 1 - 1) := by
  obtain ⟨m, rfl⟩ : ∃ m, L = m + 1 := ⟨L - 1, by omega⟩
  simp only [Nat.add_sub_cancel, Nat.mul_succ]
  generalize k * m = a
  omega

theorem chunkPages_getLastD {α : Type} (k : Nat) (hk : 1 ≤ k) (l : List α) :
    ((chunkPages k l).getLastD []).length
      = l.length - k * ((chunkPages k l).length - 1) := by
  induction l using chunkPages.induct k with
  | case1 => simp [chunkPages]
  | case2 x xs ih =>
    rcases hdrop : xs.drop (k - 1) with _ | ⟨d, ds⟩
    · have hlen : xs.length ≤ k - 1 := by
        have := congrArg List.length hdrop
        simp only [List.length_drop, List.length_nil] at this
        omega
      simp only [chunkPages, hdrop]
      simp [List.length_take, Nat.min_eq_right hlen]
    · have hne : chunkPages k (xs.drop (k - 1)) ≠ [] := by
        rw [hdrop]; exact chunkPages_ne_nil k _ (by simp)
      have hxs : k - 1 < xs.length := by
        have := congrArg List.length hdrop
        simp only [List.length_drop, List.length_cons] at this
        omega
      have h1 : 1 ≤ (chunkPages k (xs.drop (k - 1))).length :=
        List.length_pos.mpr hne
      have hgl : (chunkPages k (xs.drop (k - 1))).getLastD (x :: xs.take (k - 1))
          = (chunkPages k (xs.drop (k - 1))).getLastD [] := by
        rcases hcp : chunkPages k (xs.drop (k - 1)) with _ | ⟨a, t⟩
        · exact absurd hcp hne
        · simp [List.getLast?_cons]
      simp only [chunkPages, List.getLastD_cons, List.length_cons]
      rw [hgl, ih, List.length_drop]
      exact sub_mul_helper xs.length k _ hk hxs h1

/-- C1, counterexample.  The claim asserts that no two of the named region
rectangles — explicitly including the inner frame — overlap, and that every
named region rectangle (including `opt_box`) lies within the 744×1039 canvas.
Already at the default parameters (no override, rarity "Common") this fails:
the inner-frame rectangle (12, 12, 720, 1015) contains the title rectangle
(18, 18, 708, 52), so the two overlap, and the stored `opt_box` rectangle
(726, 936, 150, 54) extends to x = 876 > 744, outside the canvas. -/
theorem claim1_counterexample :
    tvR4 (getTheme noOverride "Common" "inner_rec") = some ⟨12, 12, 720, 1015⟩ ∧
    tvR4 (getTheme noOverride "Common" "title_rec") = some ⟨18, 18, 708, 52⟩ ∧
    ¬ rectDisjoint ⟨12, 12, 720, 1015⟩ ⟨18, 18, 708, 52⟩ ∧
    tvR4 (getTheme noOverride "Common" "opt_box") = some ⟨726, 936, 150, 54⟩ ∧
    ¬ rectInCanvas 744 1039 ⟨726, 936, 150, 54⟩ := by
  decide

/-- C1, amended.  `get_theme` hard-codes all padding and band-height
parameters, so the quantification over parameter combinations collapses to
the built-in values; theme overrides replace whole rectangles rather than
re-deriving the geometry, so the guarantee holds for overrides that do not
touch the geometry keys.  For every rarity and every such override: the five
content bands (title, art, type line, rules, and the optional-badge box as it
is actually drawn, at `x − w`) are pairwise non-overlapping, each lies inside
the inner-frame rectangle, and the inner frame — hence every band — lies
within the 744×1039 canvas. -/
theorem claim1_amended (ov : String → Option ThemeVal) (rarity : String)
    (hcs : ov "card_sz" = none) (hin : ov "inner_rec" = none)
    (hti : ov "title_rec" = none) (har : ov "art_rec" = none)
    (hty : ov "type_rec" = none) (hru : ov "rules_rec" = none)
    (hop : ov "opt_box" = none) :
    ∃ inner title art ty rules opt : Rect,
      tvR2 (getTheme ov rarity "card_sz") = some (744, 1039) ∧
      tvR4 (getTheme ov rarity "inner_rec") = some inner ∧
      tvR4 (getTheme ov rarity "title_rec") = some title ∧
      tvR4 (getTheme ov rarity "art_rec") = some art ∧
      tvR4 (getTheme ov rarity "type_rec") = some ty ∧
      tvR4 (getTheme ov rarity "rules_rec") = some rules ∧
      tvR4 (getTheme ov rarity "opt_box") = some opt ∧
      List.Pairwise rectDisjoint [title, art, ty, rules, drawnBox opt] ∧
      (∀ r ∈ [title, art, ty, rules, drawnBox opt], rectInside r inner) ∧
      rectInCanvas 744 1039 inner ∧
      (∀ r ∈ [title, art, ty, rules, drawnBox opt], rectInCanvas 744 1039 r) := by
  refine ⟨⟨12, 12, 720, 1015⟩, ⟨18, 18, 708, 52⟩, ⟨18, 76, 708, 430⟩,
    ⟨18, 512, 708, 52⟩, ⟨18, 570, 708, 360⟩, ⟨726, 936, 150, 54⟩,
    ?_, ?_, ?_, ?_, ?_, ?_, ?_, by decide, by decide, by decide, by decide⟩
  · rw [getTheme_default ov rarity _ (by decide) hcs]; decide
  · rw [getTheme_default ov rarity _ (by decide) hin]; decide
  · rw [getTheme_default ov rarity _ (by decide) hti]; decide
  · rw [getTheme_default ov rarity _ (by decide) har]; decide
  · rw [getTheme_default ov rarity _ (by decide) hty]; decide
  · rw [getTheme_default ov rarity _ (by decide) hru]; decide
  · rw [getTheme_default ov rarity _ (by decide) hop]; decide

/-- C1, witness for the amended theorem: at the empty override and rarity
"Common". -/
theorem claim1_amended_witness :
    ∃ inner title art ty rules opt : Rect,
      tvR2 (getTheme noOverride "Common" "card_sz") = some (744, 1039) ∧
      tvR4 (getTheme noOverride "Common" "inner_rec") = some inner ∧
      tvR4 (getTheme noOverride "Common" "title_rec") = some title ∧
      tvR4 (getTheme noOverride "Common" "art_rec") = some art ∧
      tvR4 (getTheme noOverride "Common" "type_rec") = some ty ∧
      tvR4 (getTheme noOverride "Common" "rules_rec") = some rules ∧
      tvR4 (getTheme noOverride "Common" "opt_box") = some opt ∧
      List.Pairwise rectDisjoint [title, art, ty, rules, drawnBox opt] ∧
      (∀ r ∈ [title, art, ty, rules, drawnBox opt], rectInside r inner) ∧
      rectInCanvas 744 1039 inner ∧
      (∀ r ∈ [title, art, ty, rules, drawnBox opt], rectInCanvas 744 1039 r) :=
  claim1_amended noOverride "Common" rfl rfl rfl rfl rfl rfl rfl

/-- C2: for a non-empty image list and cols, rows ≥ 1, the pagination loop of
`make_sheets` produces exactly ⌈n / (cols·rows)⌉ pages; every page except the
last holds exactly cols·rows images, the last holds the remainder, and the
concatenation of the pages in order is the input list. -/
theorem claim2_pagination {α : Type} (images : List α) (cols rows : Nat)
    (hne : images ≠ []) (hc : 1 ≤ cols) (hr : 1 ≤ rows) :
    (chunkPages (cols * rows) images).length
        = (images.length + cols * rows - 1) / (cols * rows) ∧
    (∀ page ∈ (chunkPages (cols * rows) images).dropLast, page.length = cols * rows) ∧
    ((chunkPages (cols * rows) images).getLastD []).length
        = images.length - cols * rows * ((chunkPages (cols * rows) images).length - 1) ∧
    (chunkPages (cols * rows) images).flatten = images := by
  have hk : 1 ≤ cols * rows := Nat.one_le_iff_ne_zero.mpr (by positivity)
  exact ⟨chunkPages_length _ hk images, chunkPages_dropLast _ hk images,
    chunkPages_getLastD _ hk images, chunkPages_flatten _ images⟩

/-- C2, witness: 15 cards at cols = 3, rows = 3 give 2 pages holding 9 and 6
cards, in input order. -/
theorem claim2_pagination_witness :
    ((chunkPages (3 * 3) (List.range 15)).length
        = ((List.range 15).length + 3 * 3 - 1) / (3 * 3) ∧
      (∀ page ∈ (chunkPages (3 * 3) (List.range 15)).dropLast, page.length = 3 * 3) ∧
      ((chunkPages (3 * 3) (List.range 15)).getLastD []).length
        = (List.range 15).length - 3 * 3 * ((chunkPages (3 * 3) (List.range 15)).length - 1) ∧
      (chunkPages (3 * 3) (List.range 15)).flatten = List.range 15) ∧
    (chunkPages 9 (List.range 15)).length = 2 ∧
    ((chunkPages 9 (List.range 15)).getLastD []).length = 6 := by
  have h := claim2_pagination (List.range 15) 3 3 (by decide) (by decide) (by decide)
  have hlen : (chunkPages (3 * 3) (List.range 15)).length = 2 := by
    rw [h.1]; decide
  have hlast : ((chunkPages (3 * 3) (List.range 15)).getLastD []).length = 6 := by
    rw [h.2.2.1, hlen]; decide
  exact ⟨h, hlen, hlast⟩

/-- C3: on an A4 portrait page at 300 dpi the computed page width is 2480
(the fixed physical width times the resolution, rounded to nearest); for
cols = 3, card_w = 744, gutter = 18 the left origin of the first grid cell is
x0 = 106, computed by floor-biased integer division, and
|2·x0 + 3·744 + 2·18 − 2481| ≤ 1 as the specification demands. -/
theorem claim3_centering :
    (a4_dimensions 300 "a4portrait").1 = 2480 ∧
    ((layout_positions (a4_dimensions 300 "a4portrait").1
        (a4_dimensions 300 "a4portrait").2 744 1039 3 3 60 18).headD (0, 0)).1 = 106 ∧
    (2 * ((layout_positions (a4_dimensions 300 "a4portrait").1
        (a4_dimensions 300 "a4portrait").2 744 1039 3 3 60 18).headD (0, 0)).1
      + 3 * 744 + 2 * 18 - 2481).natAbs ≤ 1 := by
  have ha : a4_dimensions 300 "a4portrait" = (2480, 3508) := by
    unfold a4_dimensions
    norm_num [round_eq]
  rw [ha]
  refine ⟨rfl, ?_, ?_⟩ <;> decide

/-- C7: a rarity that is a key of the closed palette forces the resolved
theme's inner accent color (`frame_inner`) to that palette entry — even over
a theme override, since `get_theme` applies the palette after the merge; a
rarity that is not a palette key keeps the default inner accent color
"#B0B0B0" when no override is given.  In particular "Legendary" resolves to
"#CF9F9F", and the specification's enum spelling "VeryRare" is not a palette
key (the palette key is "Very Rare"), so it falls back to the default. -/
theorem claim7_rarity_palette :
    (∀ (ov : String → Option ThemeVal) (r c : String), rarityColors r = some c →
      getTheme ov r "frame_inner" = some (.s c)) ∧
    (∀ r : String, rarityColors r = none →
      getTheme noOverride r "frame_inner" = some (.s "#B0B0B0")) ∧
    getTheme noOverride "Legendary" "frame_inner" = some (.s "#CF9F9F") ∧
    rarityColors "VeryRare" = none ∧
    getTheme noOverride "VeryRare" "frame_inner" = some (.s "#B0B0B0") := by
  refine ⟨?_, ?_, by decide, by decide, by decide⟩
  · intro ov r c h
    simp [getTheme, h]
  · intro r h
    simp [getTheme, h, noOverride, Option.orElse, defaultTheme]

/-- C7, witness: the two quantified parts applied at rarity "Rare" (a palette
key) and at rarity "Foo" (not a palette key). -/
theorem claim7_rarity_palette_witness :
    getTheme noOverride "Rare" "frame_inner" = some (.s "#B8D8F1") ∧
    getTheme noOverride "Foo" "frame_inner" = some (.s "#B0B0B0") :=
  ⟨claim7_rarity_palette.1 noOverride "Rare" "#B8D8F1" (by decide),
   claim7_rarity_palette.2.1 "Foo" (by decide)⟩

theorem collectFiles_ok (stems : List String) :
    ∀ reqs : List (String × Nat),
    (∀ br ∈ reqs, ∃ s ∈ stems, lowerStr s = lowerStr br.1) →
    ∃ out, collectFiles stems reqs = .ok out := by
  intro reqs
  induction reqs with
  | nil => exact fun _ => ⟨[], rfl⟩
  | cons br rs ih =>
    intro hall
    obtain ⟨s, hs, hlow⟩ := hall br (List.mem_cons_self br rs)
    have hfind : ∃ p, indexLookup stems (lowerStr br.1) = some p := by
      rcases hf : stems.reverse.find? (fun s => lowerStr s == lowerStr br.1) with _ | p
      · rw [List.find?_eq_none] at hf
        exact absurd (by simpa using hlow) (by simpa using hf s (List.mem_reverse.mpr hs))
      · exact ⟨p, hf⟩
    obtain ⟨p, hp⟩ := hfind
    obtain ⟨out, hout⟩ := ih fun br' h => hall br' (List.mem_cons_of_mem br h)
    obtain ⟨base, count⟩ := br
    exact ⟨List.replicate count p ++ out, by simp only [collectFiles, hp, hout, Except.map]⟩

theorem collectFiles_error (stems : List String) :
    ∀ reqs : List (String × Nat),
    (∃ br ∈ reqs, ∀ s ∈ stems, lowerStr s ≠ lowerStr br.1) →
    ∃ b, collectFiles stems reqs = .error b := by
  intro reqs
  induction reqs with
  | nil => intro h; simp at h
  | cons br rs ih =>
    intro h
    obtain ⟨base, count⟩ := br
    rcases hp : indexLookup stems (lowerStr base) with _ | p
    · exact ⟨base, by simp only [collectFiles, hp]⟩
    · obtain ⟨br', hbr', hbad⟩ := h
      rcases List.mem_cons.mp hbr' with heq | hmem
      · exfalso
        have hp' : stems.reverse.find? (fun s => lowerStr s == lowerStr base) = some p := hp
        have hpmem : p ∈ stems := List.mem_reverse.mp (List.mem_of_find?_eq_some hp')
        have hpeq := List.find?_some hp'
        simp only [beq_iff_eq] at hpeq
        exact hbad p hpmem (by subst heq; simpa using hpeq)
      · obtain ⟨b, hb⟩ := ih ⟨br', hmem, hbad⟩
        exact ⟨b, by simp only [collectFiles, hp, hb, Except.map]⟩

/-- C8: every request resolves case-insensitively against the card source; if
all requested identifiers resolve, `collect_files` succeeds, and if any does
not, it fails with the card-not-found error (carrying an offending base name)
and `main` produces an error instead of pages — no page list is ever built,
so nothing is rasterized and no output is produced. -/
theorem claim8_card_not_found (stems : List String) (reqs : List (String × Nat))
    (perPage : Nat) :
    ((∀ br ∈ reqs, ∃ s ∈ stems, lowerStr s = lowerStr br.1) →
      ∃ out, collectFiles stems reqs = .ok out) ∧
    ((∃ br ∈ reqs, ∀ s ∈ stems, lowerStr s ≠ lowerStr br.1) →
      ∃ b, collectFiles stems reqs = .error b ∧
        mainPages stems reqs perPage = .error b) := by
  refine ⟨collectFiles_ok stems reqs, fun hsome => ?_⟩
  obtain ⟨b, hb⟩ := collectFiles_error stems reqs hsome
  exact ⟨b, hb, by simp only [mainPages, hb, Except.map]⟩

/-- C8, witness: a source holding `Sword_of_the_Autumn_Wolf.svg` and
`Potion_of_Brightmind.svg`; a differently-cased request for the sword
resolves, while a request for a missing card fails with its base name and
yields no pages. -/
theorem claim8_card_not_found_witness :
    (∃ out, collectFiles ["Sword_of_the_Autumn_Wolf", "Potion_of_Brightmind"]
        [("sword_of_the_autumn_WOLF", 10), ("Potion_of_Brightmind", 5)] = .ok out) ∧
    (∃ b, collectFiles ["Sword_of_the_Autumn_Wolf", "Potion_of_Brightmind"]
        [("Missing_Card", 1)] = .error b ∧
      mainPages ["Sword_of_the_Autumn_Wolf", "Potion_of_Brightmind"]
        [("Missing_Card", 1)] 9 = .error b) :=
  ⟨(claim8_card_not_found ["Sword_of_the_Autumn_Wolf", "Potion_of_Brightmind"]
      [("sword_of_the_autumn_WOLF", 10), ("Potion_of_Brightmind", 5)] 9).1 (by decide),
   (claim8_card_not_found ["Sword_of_the_Autumn_Wolf", "Potion_of_Brightmind"]
      [("Missing_Card", 1)] 9).2 (by decide)⟩

theorem takeWhile_append_all {α : Type} (p : α → Bool) :
    ∀ (as r : List α), (∀ x ∈ as, p x) → (as ++ r).takeWhile p = as ++ r.takeWhile p := by
  intro as
  induction as with
  | nil => intro r _; simp
  | cons a as ih =>
    intro r h
    have ha : p a := h a (List.mem_cons_self a as)
    simp only [List.cons_append, List.takeWhile_cons_of_pos ha]
    rw [ih r fun x hx => h x (List.mem_cons_of_mem a hx)]

theorem dropWhile_append_all {α : Type} (p : α → Bool) :
    ∀ (as r : List α), (∀ x ∈ as, p x) → (as ++ r).dropWhile p = r.dropWhile p := by
  intro as
  induction as with
  | nil => intro r _; simp
  | cons a as ih =>
    intro r h
    have ha : p a := h a (List.mem_cons_self a as)
    simp only [List.cons_append, List.dropWhile_cons_of_pos ha]
    exact ih r fun x hx => h x (List.mem_cons_of_mem a hx)

theorem isWordCh_ne_hyphen {c : Char} (h : isWordCh c = true) : decide (c = '-') = false := by
  by_cases hc : c = '-'
  · subst hc; simp [isWordCh] at h
  · simp [hc]

theorem optionalBadges_get (w : Int) :
    ∀ (fields : List (Option String)) (x tx : Int) (i : Nat)
      (hi : i < (optionalBadges w x tx fields).length),
    ((optionalBadges w x tx fields).get ⟨i, hi⟩).1 = x - w - i * (w + 6) ∧
    ((optionalBadges w x tx fields).get ⟨i, hi⟩).2.1 = tx - i * (w + 6) := by
  intro fields
  induction fields with
  | nil => intro x tx i hi; simp [optionalBadges] at hi
  | cons f rest ih =>
    intro x tx i hi
    by_cases hf : truthy f
    · revert hi
      rw [show optionalBadges w x tx (f :: rest)
          = (x - w, tx, f.getD "") :: optionalBadges w (x - (w + 6)) (tx - (w + 6)) rest
        from by simp [optionalBadges, hf]]
      intro hi
      cases i with
      | zero => constructor <;> simp
      | succ n =>
        have := ih (x - (w + 6)) (tx - (w + 6)) n (by simpa using hi)
        simp only [List.get_cons_succ]
        constructor
        · rw [this.1]; push_cast; ring
        · rw [this.2]; push_cast; ring
    · revert hi
      rw [show optionalBadges w x tx (f :: rest) = optionalBadges w x tx rest
        from by simp [optionalBadges, hf]]
      intro hi
      exact ih x tx i hi

theorem optionalBadges_texts (w : Int) :
    ∀ (fields : List (Option String)) (x tx : Int),
    (optionalBadges w x tx fields).map (fun bdg => bdg.2.2) = presentFields fields := by
  intro fields
  induction fields with
  | nil => intro x tx; rfl
  | cons f rest ih =>
    intro x tx
    rcases f with _ | s
    · simp [optionalBadges, truthy, presentFields, List.filter_cons, ih]
    · by_cases hs : s = ""
      · subst hs
        simp [optionalBadges, truthy, presentFields, List.filter_cons] at *
        simpa [presentFields] using ih x tx
      · simp only [optionalBadges, truthy]
        rw [if_pos (by simpa using hs)]
        simp only [List.map_cons, Option.getD_some]
        rw [ih]
        simp [presentFields, List.filter_cons, truthy, hs]

/-- C6: one badge per present (truthy) field, in source order pt, price,
weight; the i-th emitted badge box sits at `x − w − i·(w+6)` with its text
anchor at `tx − i·(w+6)` — absent fields are skipped without leaving a gap;
with all three fields absent there are no badges, and the rules component of
`build_svg` never depends on the badge fields at all. -/
theorem claim6_badges :
    (∀ (w x tx : Int) (pt price weight : Option String),
      (optionalBadges w x tx [pt, price, weight]).map (fun bdg => bdg.2.2)
        = presentFields [pt, price, weight]) ∧
    (∀ (w x tx : Int) (fields : List (Option String)) (i : Nat)
      (hi : i < (optionalBadges w x tx fields).length),
      ((optionalBadges w x tx fields).get ⟨i, hi⟩).1 = x - w - i * (w + 6) ∧
      ((optionalBadges w x tx fields).get ⟨i, hi⟩).2.1 = tx - i * (w + 6)) ∧
    (∀ (w x tx : Int), optionalBadges w x tx [none, none, none] = []) ∧
    (∀ (card : Card) (pt price weight : Option String),
      rulesComponent { card with pt := pt, price := price, weight := weight }
        = rulesComponent card) := by
  refine ⟨fun w x tx pt price weight => optionalBadges_texts w [pt, price, weight] x tx,
    fun w x tx fields i hi => optionalBadges_get w fields x tx i hi,
    fun w x tx => rfl, fun card pt price weight => rfl⟩

/-- C6, witness: with pt = "2/3", price absent and weight = "5 lb", the two
badges carry those texts at offsets 0 and one badge-pitch to the left; the
all-absent case yields no badges; the rules component of a sample card is
untouched by the badge fields. -/
theorem claim6_badges_witness :
    (optionalBadges 150 726 651 [some "2/3", none, some "5 lb"]).map (fun bdg => bdg.2.2)
      = presentFields [some "2/3", none, some "5 lb"] ∧
    ((optionalBadges 150 726 651 [some "2/3", none, some "5 lb"]).get
        ⟨1, by decide⟩).1 = 726 - 150 - 1 * (150 + 6) ∧
    optionalBadges 150 726 651 [none, none, none] = [] := by
  refine ⟨claim6_badges.1 150 726 651 (some "2/3") none (some "5 lb"), ?_, claim6_badges.2.2.1 150 726 651⟩
  exact (claim6_badges.2.1 150 726 651 [some "2/3", none, some "5 lb"] 1 (by decide)).1

/-- C9: `build_svg` is deterministic — the vector document is a pure function
of the card record (its fields, its resolved theme inputs, and the bytes of
any referenced art file); two calls on field-wise identical input produce the
identical byte string. -/
theorem claim9_deterministic (c1 c2 : Card)
    (h1 : c1.name = c2.name) (h2 : c1.rarity = c2.rarity) (h3 : c1.theme = c2.theme)
    (h4 : c1.art_path = c2.art_path) (h5 : c1.artBytes = c2.artBytes)
    (h6 : c1.type_line = c2.type_line) (h7 : c1.rules_text = c2.rules_text)
    (h8 : c1.flavor_text = c2.flavor_text) (h9 : c1.pt = c2.pt)
    (h10 : c1.price = c2.price) (h11 : c1.weight = c2.weight)
    (h12 : c1.set_code = c2.set_code) (h13 : c1.collector = c2.collector)
    (h14 : c1.author = c2.author) (h15 : c1.copyright = c2.copyright) :
    build_svg c1 = build_svg c2 := by
  have : c1 = c2 := by
    cases c1
    cases c2
    simp only at h1 h2 h3 h4 h5 h6 h7 h8 h9 h10 h11 h12 h13 h14 h15
    subst h1 h2 h3 h4 h5 h6 h7 h8 h9 h10 h11 h12 h13 h14 h15
    rfl
  rw [this]

/-- C9, witness: the determinism theorem applied to two literally identical
sample cards. -/
theorem claim9_deterministic_witness : build_svg sampleCard = build_svg sampleCard :=
  claim9_deterministic sampleCard sampleCard rfl rfl rfl rfl rfl rfl rfl rfl rfl rfl
    rfl rfl rfl rfl rfl

/-- C10: the grid cell origins computed by `layout_positions` are independent
of the outer margin parameter — the interface accepts `margin_px` but the
placement never uses it. -/
theorem claim10_margin_unused (sheet_w sheet_h card_w card_h : Int) (cols rows : Nat)
    (margin1 margin2 gutter : Int) :
    layout_positions sheet_w sheet_h card_w card_h cols rows margin1 gutter
      = layout_positions sheet_w sheet_h card_w card_h cols rows margin2 gutter := rfl

end Cardmaker

